import Mathlib

/-!
# Verification of the micropdf geometry / buffer kernel

Shallow embedding of the pure-Python geometry and buffer classes from
`benchmarks/cross_language_overhead.py` and
`micropdf-py/benchmarks/benchmark.py`.  Python `float` arithmetic is
modelled by exact rational arithmetic (`ℚ`); every operation below is a
direct transcription of the corresponding Python method.
-/

namespace MicroPDF

/-- 2D point, from `class Point` (fields `x`, `y`). -/
@[ext] structure Point where
  x : ℚ
  y : ℚ
  deriving DecidableEq

/-- 2D transformation matrix, from `class Matrix` (fields `a`..`f`). -/
@[ext] structure Matrix where
  a : ℚ
  b : ℚ
  c : ℚ
  d : ℚ
  e : ℚ
  f : ℚ
  deriving DecidableEq

/-- `Point.transform`: `x' = x*m.a + y*m.c + m.e`, `y' = x*m.b + y*m.d + m.f`. -/
def Point.transform (p : Point) (m : Matrix) : Point :=
  ⟨p.x * m.a + p.y * m.c + m.e, p.x * m.b + p.y * m.d + m.f⟩

/-- `Matrix.identity()` returns `(1,0,0,1,0,0)`. -/
def Matrix.identity : Matrix := ⟨1, 0, 0, 1, 0, 0⟩

/-- `Matrix.scale(sx, sy)` returns `(sx,0,0,sy,0,0)`. -/
def Matrix.scale (sx sy : ℚ) : Matrix := ⟨sx, 0, 0, sy, 0, 0⟩

/-- `Matrix.translate(tx, ty)` returns `(1,0,0,1,tx,ty)`. -/
def Matrix.translate (tx ty : ℚ) : Matrix := ⟨1, 0, 0, 1, tx, ty⟩

/-- `Matrix.concat(other)`: row-vector composition, transcribed from the
source coefficient by coefficient. -/
def Matrix.concat (self other : Matrix) : Matrix :=
  ⟨self.a * other.a + self.b * other.c,
   self.a * other.b + self.b * other.d,
   self.c * other.a + self.d * other.c,
   self.c * other.b + self.d * other.d,
   self.e * other.a + self.f * other.c + other.e,
   self.e * other.b + self.f * other.d + other.f⟩

/-- The determinant expression `a*d - b*c` computed inside `Matrix.invert`. -/
def Matrix.det (m : Matrix) : ℚ := m.a * m.d - m.b * m.c

/-- The fixed epsilon `1e-14` used by `Matrix.invert`. -/
def invertEps : ℚ := 1 / 10 ^ 14

/-- `Matrix.invert()`: returns `None` when `abs(det) < 1e-14`, otherwise the
analytic affine inverse, each entry multiplied by `inv_det = 1.0 / det`. -/
def Matrix.invert (m : Matrix) : Option Matrix :=
  let det := m.a * m.d - m.b * m.c
  if |det| < invertEps then none
  else
    let inv_det := 1 / det
    some ⟨m.d * inv_det, -m.b * inv_det, -m.c * inv_det, m.a * inv_det,
          (m.c * m.f - m.d * m.e) * inv_det,
          (m.b * m.e - m.a * m.f) * inv_det⟩

/-- Axis-aligned rectangle, from `class Rect` (fields `x0,y0,x1,y1`). -/
@[ext] structure Rect where
  x0 : ℚ
  y0 : ℚ
  x1 : ℚ
  y1 : ℚ
  deriving DecidableEq

/-- `Rect.width()`: `abs(x1 - x0)` (absolute difference, per `benchmark.py`). -/
def Rect.width (r : Rect) : ℚ := |r.x1 - r.x0|

/-- `Rect.height()`: `abs(y1 - y0)`. -/
def Rect.height (r : Rect) : ℚ := |r.y1 - r.y0|

/-- `Rect.union(other)`: coordinate-wise min of lower corners, max of upper. -/
def Rect.union (self other : Rect) : Rect :=
  ⟨min self.x0 other.x0, min self.y0 other.y0,
   max self.x1 other.x1, max self.y1 other.y1⟩

/-- `Rect.intersect(other)`: coordinate-wise max of lower corners, min of
upper corners, from `benchmark.py`. -/
def Rect.intersect (self other : Rect) : Rect :=
  ⟨max self.x0 other.x0, max self.y0 other.y0,
   min self.x1 other.x1, min self.y1 other.y1⟩

/-- `Rect.transform(m)` from `cross_language_overhead.py`: the four corner
images are computed inline and the result is their min/max per axis
(Python `min(a,b,c,d)` folds from the left). -/
def Rect.transform (r : Rect) (m : Matrix) : Rect :=
  let p1x := r.x0 * m.a + r.y0 * m.c + m.e
  let p1y := r.x0 * m.b + r.y0 * m.d + m.f
  let p2x := r.x1 * m.a + r.y0 * m.c + m.e
  let p2y := r.x1 * m.b + r.y0 * m.d + m.f
  let p3x := r.x0 * m.a + r.y1 * m.c + m.e
  let p3y := r.x0 * m.b + r.y1 * m.d + m.f
  let p4x := r.x1 * m.a + r.y1 * m.c + m.e
  let p4y := r.x1 * m.b + r.y1 * m.d + m.f
  ⟨min (min (min p1x p2x) p3x) p4x,
   min (min (min p1y p2y) p3y) p4y,
   max (max (max p1x p2x) p3x) p4x,
   max (max (max p1y p2y) p3y) p4y⟩

/-- `Rect.transform(m)` as written in `micropdf-py/benchmarks/benchmark.py`:
builds the four corners `(x0,y0),(x1,y0),(x0,y1),(x1,y1)`, maps
`Point.transform` over them and takes `min`/`max` of the coordinate lists. -/
def Rect.transformCorners (r : Rect) (m : Matrix) : Rect :=
  let c1 := (Point.mk r.x0 r.y0).transform m
  let c2 := (Point.mk r.x1 r.y0).transform m
  let c3 := (Point.mk r.x0 r.y1).transform m
  let c4 := (Point.mk r.x1 r.y1).transform m
  ⟨min (min (min c1.x c2.x) c3.x) c4.x,
   min (min (min c1.y c2.y) c3.y) c4.y,
   max (max (max c1.x c2.x) c3.x) c4.x,
   max (max (max c1.y c2.y) c3.y) c4.y⟩

/-- Four-corner quadrilateral, from `class Quad` (fields `ul, ur, ll, lr`). -/
@[ext] structure Quad where
  ul : Point
  ur : Point
  ll : Point
  lr : Point
  deriving DecidableEq

/-- `Quad.from_rect(r)`: corners `(x0,y0), (x1,y0), (x0,y1), (x1,y1)`. -/
def Quad.from_rect (r : Rect) : Quad :=
  ⟨⟨r.x0, r.y0⟩, ⟨r.x1, r.y0⟩, ⟨r.x0, r.y1⟩, ⟨r.x1, r.y1⟩⟩

/-- `Quad.to_rect()`: min/max of the four corner coordinate lists
(Python `min(xs)` folds from the left). -/
def Quad.to_rect (q : Quad) : Rect :=
  ⟨min (min (min q.ul.x q.ur.x) q.ll.x) q.lr.x,
   min (min (min q.ul.y q.ur.y) q.ll.y) q.lr.y,
   max (max (max q.ul.x q.ur.x) q.ll.x) q.lr.x,
   max (max (max q.ul.y q.ur.y) q.ll.y) q.lr.y⟩

/-- `Quad.transform(m)`: transforms each corner independently. -/
def Quad.transform (q : Quad) (m : Matrix) : Quad :=
  ⟨q.ul.transform m, q.ur.transform m, q.ll.transform m, q.lr.transform m⟩

/-- Dynamic byte buffer, from `class Buffer` in
`cross_language_overhead.py`; the `_data` bytearray is modelled as a list of
byte values. -/
structure Buffer where
  _data : List Nat
  deriving DecidableEq

/-- `Buffer.__init__(capacity)`: `self._data = bytearray(capacity)` —
`capacity` zero bytes. -/
def Buffer.init (capacity : Nat) : Buffer := ⟨List.replicate capacity 0⟩

/-- Python full-slice assignment `buf._data[:] = data`: replaces the whole
content of the bytearray. -/
def Buffer.sliceAssignAll (_self : Buffer) (d : List Nat) : Buffer := ⟨d⟩

/-- `Buffer.from_slice(data)`: `buf = Buffer(len(data)); buf._data[:] = data`. -/
def Buffer.from_slice (d : List Nat) : Buffer :=
  (Buffer.init d.length).sliceAssignAll d

/-- `Buffer.append_data(data)`: `self._data.extend(data)`. -/
def Buffer.append_data (self : Buffer) (d : List Nat) : Buffer :=
  ⟨self._data ++ d⟩

/-- Errors raised by `merge_pdfs`: `InvalidArgument` is a `ValueError`
carrying a message; `DocumentError` covers open/parse/write failures. -/
inductive MergeError
  | invalidArgument (msg : String)
  | documentError
  deriving DecidableEq

/-- Modelled from the spec: the implementation of `merge_pdfs` is not among
the source files — only its tests (`micropdf-py/tests/test_enhanced.py`)
exercise it.  Per the spec it validates caller-supplied arguments before any
I/O or native resource allocation: an empty `input_paths` list or an empty
`output_path` raises `InvalidArgument` (a `ValueError` whose messages the
tests match); otherwise a private context is created, each input is opened
in order (`fs` says which paths open successfully) and every resource is
released on every exit path.  The second component of the result lists the
resources still allocated when the call returns. -/
def merge_pdfs (fs : String → Bool) (input_paths : List String)
    (output_path : String) : Except MergeError Unit × List String :=
  if input_paths.isEmpty then
    (Except.error (MergeError.invalidArgument "Input PDF paths cannot be empty"), [])
  else if output_path.isEmpty then
    (Except.error (MergeError.invalidArgument "Output path cannot be empty"), [])
  else if input_paths.all fs then
    (Except.ok (), [])
  else
    (Except.error MergeError.documentError, [])

end MicroPDF

namespace MicroPDF

/-- C1: composing matrices with `concat` and then transforming a point agrees
with transforming by each matrix in sequence:
`p.transform(m1.concat(m2)) == p.transform(m1).transform(m2)`. -/
theorem point_transform_concat (p : Point) (m1 m2 : Matrix) :
    p.transform (m1.concat m2) = (p.transform m1).transform m2 := by
  ext <;> simp only [Point.transform, Matrix.concat] <;> ring

/-- C2: `invert` fails (returns `none`) exactly when `|a*d - b*c| < 1e-14`
(the fixed epsilon), and when `|det| >= 1e-14` it returns the analytic
affine inverse, never failing. -/
theorem invert_eps_dichotomy (m : Matrix) :
    (m.invert = none ↔ |m.det| < invertEps) ∧
    (invertEps ≤ |m.det| →
      m.invert = some ⟨m.d * (1 / m.det), -m.b * (1 / m.det), -m.c * (1 / m.det),
        m.a * (1 / m.det), (m.c * m.f - m.d * m.e) * (1 / m.det),
        (m.b * m.e - m.a * m.f) * (1 / m.det)⟩) := by
  constructor
  · simp only [Matrix.invert, Matrix.det]
    split <;> simp_all
  · intro h
    simp only [Matrix.invert, Matrix.det] at *
    rw [if_neg (not_lt.mpr h)]

/-- Witness for C2 at the concrete matrix `Matrix.scale(2, 3)` (det = 6). -/
theorem invert_eps_dichotomy_witness :
    invertEps ≤ |(Matrix.scale 2 3).det| ∧
      (Matrix.scale 2 3).invert = some ⟨1/2, 0, 0, 1/3, 0, 0⟩ := by
  have h : invertEps ≤ |(Matrix.scale 2 3).det| := by
    norm_num [Matrix.scale, Matrix.det, invertEps]
  refine ⟨h, ?_⟩
  rw [(invert_eps_dichotomy (Matrix.scale 2 3)).2 h]
  norm_num [Matrix.scale, Matrix.det, Matrix.mk.injEq]

/-- C3: `Rect.transform(m)` transforms all four corners
`(x0,y0),(x1,y0),(x0,y1),(x1,y1)` by `m` and returns their axis-aligned
bounding box: its `x0`/`y0` are the minimum and its `x1`/`y1` the maximum of
the transformed corner coordinates per axis.  The inline-arithmetic
implementation (`cross_language_overhead.py`) agrees with the corner-list
implementation (`benchmark.py`). -/
theorem rect_transform_eq_corner_bbox (r : Rect) (m : Matrix) :
    r.transform m = r.transformCorners m ∧
    (r.transform m).x0 =
      min (min (min ((Point.mk r.x0 r.y0).transform m).x
        ((Point.mk r.x1 r.y0).transform m).x) ((Point.mk r.x0 r.y1).transform m).x)
        ((Point.mk r.x1 r.y1).transform m).x ∧
    (r.transform m).y0 =
      min (min (min ((Point.mk r.x0 r.y0).transform m).y
        ((Point.mk r.x1 r.y0).transform m).y) ((Point.mk r.x0 r.y1).transform m).y)
        ((Point.mk r.x1 r.y1).transform m).y ∧
    (r.transform m).x1 =
      max (max (max ((Point.mk r.x0 r.y0).transform m).x
        ((Point.mk r.x1 r.y0).transform m).x) ((Point.mk r.x0 r.y1).transform m).x)
        ((Point.mk r.x1 r.y1).transform m).x ∧
    (r.transform m).y1 =
      max (max (max ((Point.mk r.x0 r.y0).transform m).y
        ((Point.mk r.x1 r.y0).transform m).y) ((Point.mk r.x0 r.y1).transform m).y)
        ((Point.mk r.x1 r.y1).transform m).y :=
  ⟨rfl, rfl, rfl, rfl, rfl⟩

/-- C4: `intersect` takes the coordinate-wise max of lower corners and min of
upper corners, it is total (a pure function), and disjoint normalized inputs
produce an inverted result (`x1 < x0`) rather than an error. -/
theorem intersect_minmax_total (r1 r2 : Rect) :
    (r1.intersect r2).x0 = max r1.x0 r2.x0 ∧
    (r1.intersect r2).y0 = max r1.y0 r2.y0 ∧
    (r1.intersect r2).x1 = min r1.x1 r2.x1 ∧
    (r1.intersect r2).y1 = min r1.y1 r2.y1 ∧
    (r1.x0 ≤ r1.x1 → r2.x0 ≤ r2.x1 → r1.x1 < r2.x0 →
      (r1.intersect r2).x1 < (r1.intersect r2).x0) := by
  refine ⟨rfl, rfl, rfl, rfl, ?_⟩
  intro _ _ h
  show min r1.x1 r2.x1 < max r1.x0 r2.x0
  calc min r1.x1 r2.x1 ≤ r1.x1 := min_le_left _ _
    _ < r2.x0 := h
    _ ≤ max r1.x0 r2.x0 := le_max_right _ _

/-- Witness for C4 at concrete x-disjoint rectangles. -/
theorem intersect_minmax_total_witness :
    ((Rect.mk 0 0 1 1).intersect (Rect.mk 2 0 3 1)).x1 <
      ((Rect.mk 0 0 1 1).intersect (Rect.mk 2 0 3 1)).x0 :=
  (intersect_minmax_total (Rect.mk 0 0 1 1) (Rect.mk 2 0 3 1)).2.2.2.2
    (by norm_num) (by norm_num) (by norm_num)

/-- C5 counterexample: `Rect(0,0,100,100).intersect(Rect(200,200,300,300))`
is `Rect(200,200,100,100)`, and since `width()`/`height()` take the absolute
difference, `width() = height() = 100 > 0` — the claim that they are
non-positive is false on the code. -/
theorem intersect_disjoint_width_not_nonpos :
    ¬ (((Rect.mk 0 0 100 100).intersect (Rect.mk 200 200 300 300)).width ≤ 0 ∧
       ((Rect.mk 0 0 100 100).intersect (Rect.mk 200 200 300 300)).height ≤ 0) := by
  norm_num [Rect.intersect, Rect.width, Rect.height]

/-- C5 amended: the disjoint intersection yields the inverted rectangle
`Rect(200,200,100,100)` — emptiness is detectable from the pre-abs
differences `x1 - x0` and `y1 - y0` being negative — while `width()` and
`height()` themselves return the positive value `100` because they apply
`abs`. -/
theorem intersect_disjoint_inverted :
    (Rect.mk 0 0 100 100).intersect (Rect.mk 200 200 300 300) =
      Rect.mk 200 200 100 100 ∧
    ((Rect.mk 0 0 100 100).intersect (Rect.mk 200 200 300 300)).x1 -
      ((Rect.mk 0 0 100 100).intersect (Rect.mk 200 200 300 300)).x0 < 0 ∧
    ((Rect.mk 0 0 100 100).intersect (Rect.mk 200 200 300 300)).y1 -
      ((Rect.mk 0 0 100 100).intersect (Rect.mk 200 200 300 300)).y0 < 0 ∧
    ((Rect.mk 0 0 100 100).intersect (Rect.mk 200 200 300 300)).width = 100 ∧
    ((Rect.mk 0 0 100 100).intersect (Rect.mk 200 200 300 300)).height = 100 := by
  norm_num [Rect.intersect, Rect.width, Rect.height, Rect.mk.injEq]

/-- C6: whenever `invert` succeeds, `m.concat(m.invert())` is the identity
matrix up to the stated tolerance 1e-9 in every coefficient (in exact
rational arithmetic the product is the identity, so each deviation is 0). -/
theorem concat_invert_approx_identity (m mi : Matrix) (h : m.invert = some mi) :
    |(m.concat mi).a - Matrix.identity.a| ≤ 1 / 10 ^ 9 ∧
    |(m.concat mi).b - Matrix.identity.b| ≤ 1 / 10 ^ 9 ∧
    |(m.concat mi).c - Matrix.identity.c| ≤ 1 / 10 ^ 9 ∧
    |(m.concat mi).d - Matrix.identity.d| ≤ 1 / 10 ^ 9 ∧
    |(m.concat mi).e - Matrix.identity.e| ≤ 1 / 10 ^ 9 ∧
    |(m.concat mi).f - Matrix.identity.f| ≤ 1 / 10 ^ 9 := by
  simp only [Matrix.invert] at h
  split at h
  · exact absurd h (by simp)
  · rename_i hlt
    have hd : m.a * m.d - m.b * m.c ≠ 0 := by
      intro h0
      exact hlt (by rw [h0]; norm_num [invertEps])
    obtain rfl := Option.some.inj h
    have key : m.concat ⟨m.d * (1 / (m.a * m.d - m.b * m.c)),
        -m.b * (1 / (m.a * m.d - m.b * m.c)), -m.c * (1 / (m.a * m.d - m.b * m.c)),
        m.a * (1 / (m.a * m.d - m.b * m.c)),
        (m.c * m.f - m.d * m.e) * (1 / (m.a * m.d - m.b * m.c)),
        (m.b * m.e - m.a * m.f) * (1 / (m.a * m.d - m.b * m.c))⟩ = Matrix.identity := by
      ext <;> simp only [Matrix.concat, Matrix.identity] <;> field_simp <;> ring
    rw [key]
    norm_num [Matrix.identity]

/-- Witness for C6 at the concrete matrix `Matrix.scale(2, 3)` and its
inverse `(1/2, 0, 0, 1/3, 0, 0)`. -/
theorem concat_invert_approx_identity_witness :
    |((Matrix.scale 2 3).concat ⟨1/2, 0, 0, 1/3, 0, 0⟩).a - Matrix.identity.a| ≤ 1 / 10 ^ 9 ∧
    |((Matrix.scale 2 3).concat ⟨1/2, 0, 0, 1/3, 0, 0⟩).b - Matrix.identity.b| ≤ 1 / 10 ^ 9 ∧
    |((Matrix.scale 2 3).concat ⟨1/2, 0, 0, 1/3, 0, 0⟩).c - Matrix.identity.c| ≤ 1 / 10 ^ 9 ∧
    |((Matrix.scale 2 3).concat ⟨1/2, 0, 0, 1/3, 0, 0⟩).d - Matrix.identity.d| ≤ 1 / 10 ^ 9 ∧
    |((Matrix.scale 2 3).concat ⟨1/2, 0, 0, 1/3, 0, 0⟩).e - Matrix.identity.e| ≤ 1 / 10 ^ 9 ∧
    |((Matrix.scale 2 3).concat ⟨1/2, 0, 0, 1/3, 0, 0⟩).f - Matrix.identity.f| ≤ 1 / 10 ^ 9 :=
  concat_invert_approx_identity (Matrix.scale 2 3) ⟨1/2, 0, 0, 1/3, 0, 0⟩ (by
    norm_num [Matrix.invert, Matrix.scale, invertEps, Matrix.mk.injEq])

/-- C7: for a normalized rectangle (`x0 <= x1` and `y0 <= y1`) the round
trip `Quad.from_rect(r).to_rect()` returns `r` component-wise. -/
theorem quad_from_rect_to_rect (r : Rect) (hx : r.x0 ≤ r.x1) (hy : r.y0 ≤ r.y1) :
    (Quad.from_rect r).to_rect = r := by
  ext <;>
    simp [Quad.from_rect, Quad.to_rect, min_eq_left hx, max_eq_right hx,
      max_eq_left hx, min_eq_left hy, max_eq_right hy, max_eq_left hy]

/-- Witness for C7 at the concrete rectangle `Rect(0, 0, 100, 100)`. -/
theorem quad_from_rect_to_rect_witness :
    (Quad.from_rect (Rect.mk 0 0 100 100)).to_rect = Rect.mk 0 0 100 100 :=
  quad_from_rect_to_rect (Rect.mk 0 0 100 100) (by norm_num) (by norm_num)

/-- C8: `Buffer.from_slice(d)` yields a buffer whose length equals `len(d)`
and whose contents are `d` verbatim, for every byte sequence `d`. -/
theorem from_slice_copies (d : List Nat) :
    (Buffer.from_slice d)._data.length = d.length ∧
    (Buffer.from_slice d)._data = d :=
  ⟨rfl, rfl⟩

/-- C10: `Buffer(capacity)` makes the requested capacity visible content —
`c` zero bytes of length `c`, not an empty buffer with reserved storage — so
appending to a buffer created with capacity `c` places the appended bytes
after `c` zero bytes. -/
theorem init_capacity_zeros_append (c : Nat) (d : List Nat) :
    (Buffer.init c)._data.length = c ∧
    (Buffer.init c)._data = List.replicate c 0 ∧
    ((Buffer.init c).append_data d)._data = List.replicate c 0 ++ d := by
  refine ⟨?_, rfl, rfl⟩
  simp [Buffer.init]

/-- C9: `merge_pdfs` with an empty input list or an empty output path fails
with `InvalidArgument` and leaves no resource allocated, for every file
system and argument combination. -/
theorem merge_pdfs_invalid_argument (fs : String → Bool)
    (input_paths : List String) (output_path : String)
    (h : input_paths = [] ∨ output_path = "") :
    (∃ msg, (merge_pdfs fs input_paths output_path).1 =
      Except.error (MergeError.invalidArgument msg)) ∧
    (merge_pdfs fs input_paths output_path).2 = [] := by
  rcases h with h | h
  · subst h
    exact ⟨⟨"Input PDF paths cannot be empty", rfl⟩, rfl⟩
  · subst h
    have hout : ("" : String).isEmpty = true := rfl
    by_cases he : input_paths.isEmpty
    · refine ⟨⟨"Input PDF paths cannot be empty", ?_⟩, ?_⟩ <;>
        simp [merge_pdfs, he, hout]
    · refine ⟨⟨"Output path cannot be empty", ?_⟩, ?_⟩ <;>
        simp [merge_pdfs, he, hout]

/-- Witness for C9: `merge_pdfs([], "out.pdf")` fails with
`InvalidArgument` and leaves nothing allocated. -/
theorem merge_pdfs_invalid_argument_witness :
    (∃ msg, (merge_pdfs (fun _ => true) [] "out.pdf").1 =
      Except.error (MergeError.invalidArgument msg)) ∧
    (merge_pdfs (fun _ => true) [] "out.pdf").2 = [] :=
  merge_pdfs_invalid_argument (fun _ => true) [] "out.pdf" (Or.inl rfl)

end MicroPDF
